import Mathlib

/-!
Verification of the daemonset package of kernel-module-management
(internal/daemonset/daemonset.go), shallowly embedded in Lean 4.

Go maps `map[string]string` are modelled as association lists
(`LabelMap`), with `labelsGet` reproducing Go's zero-value semantics:
indexing a missing key yields the empty string.  Go slices that the code
distinguishes from `nil` are modelled as `Option (List _)`; pointers to
structs are `Option _`.  The external object store (client.Delete,
client.List) is passed in as an explicit function or as the list it
returned; controller-runtime's SetControllerReference is modelled as
recording the owning module's name.
-/

namespace Daemonset

/-- Association-list model of a Go `map[string]string`. -/
abbrev LabelMap := List (String × String)

/-- Go map indexing `m[k]`: yields the zero value "" when the key is absent. -/
def labelsGet (m : LabelMap) (k : String) : String :=
  (m.lookup k).getD ""

/-- Go map assignment `m[k] = v`: replaces the binding if present, else appends it. -/
def mapInsert (m : LabelMap) (k v : String) : LabelMap :=
  if (m.lookup k).isSome then
    m.map (fun p => if p.1 = k then (k, v) else p)
  else
    m ++ [(k, v)]

/- Constants from the daemonset.go const block. -/

def kubeletDevicePluginsVolumeName : String := "kubelet-device-plugins"

def kubeletDevicePluginsPath : String := "/var/lib/kubelet/device-plugins"

def nodeLibModulesPath : String := "/lib/modules"

def nodeLibModulesVolumeName : String := "node-lib-modules"

def nodeUsrLibModulesPath : String := "/usr/lib/modules"

def nodeUsrLibModulesVolumeName : String := "node-usr-lib-modules"

def nodeVarLibFirmwarePath : String := "/var/lib/firmware"

def nodeVarLibFirmwareVolumeName : String := "node-var-lib-firmware"

def devicePluginKernelVersion : String := ""

/-- Modelled from the spec: constants.ModuleNameLabel from the internal
constants package, which is not among the provided sources; its exact value
does not affect any property proved below. -/
def ModuleNameLabel : String := "kmm.node.kubernetes.io/module.name"

/-- Modelled from the spec: constants.DaemonSetRole from the internal
constants package (the role label distinguishing module-loader from
device-plugin workloads); its exact value does not affect any property
proved below. -/
def DaemonSetRole : String := "kmm.node.kubernetes.io/role"

/-- Modelled from the spec: constants.NodeLabelerFinalizer from the internal
constants package; its exact value does not affect any property proved
below. -/
def NodeLabelerFinalizer : String := "kmm.node.kubernetes.io/node-labeler"

/- Data model: the subset of the Kubernetes API types that daemonset.go
reads or writes, plus the kmm.sigs.k8s.io/v1beta1 Module types it consumes. -/

structure LocalObjectReference where
  Name : String
deriving DecidableEq, Repr

structure VolumeMount where
  Name : String
  ReadOnly : Bool := false
  MountPath : String
deriving DecidableEq, Repr

/-- HostPath volume source; `HostPathType` stands for v1.HostPathDirectory /
v1.HostPathDirectoryOrCreate. -/
structure HostPathVolumeSource where
  Path : String
  HostPathType : String
deriving DecidableEq, Repr

structure Volume where
  Name : String
  HostPath : Option HostPathVolumeSource := none
deriving DecidableEq, Repr

structure SELinuxOptions where
  SEType : String
deriving DecidableEq, Repr

structure Capabilities where
  Add : List String
deriving DecidableEq, Repr

structure SecurityContext where
  AllowPrivilegeEscalation : Option Bool := none
  Caps : Option Capabilities := none
  RunAsUser : Option Int := none
  SELinux : Option SELinuxOptions := none
  Privileged : Option Bool := none
deriving DecidableEq, Repr

structure ExecAction where
  Command : List String
deriving DecidableEq, Repr

structure LifecycleHandler where
  Exec : Option ExecAction
deriving DecidableEq, Repr

structure Lifecycle where
  PostStart : Option LifecycleHandler := none
  PreStop : Option LifecycleHandler := none
deriving DecidableEq, Repr

/-- Pass-through container resource requirements (never inspected by the
daemonset code, only copied). -/
structure ResourceRequirements where
  Limits : LabelMap := []
  Requests : LabelMap := []
deriving DecidableEq, Repr

/-- Pass-through environment variable (never inspected, only copied). -/
structure EnvVar where
  Name : String
  Value : String := ""
deriving DecidableEq, Repr

structure Container where
  Name : String
  Image : String
  ImagePullPolicy : String := ""
  Command : List String := []
  Args : List String := []
  Env : List EnvVar := []
  Resources : ResourceRequirements := {}
  ContainerLifecycle : Option Lifecycle := none
  Security : Option SecurityContext := none
  VolumeMounts : List VolumeMount := []
deriving DecidableEq, Repr

structure PodSpec where
  Containers : List Container := []
  ImagePullSecrets : Option (List LocalObjectReference) := none
  NodeSelector : LabelMap := []
  PriorityClassName : String := ""
  ServiceAccountName : String := ""
  Volumes : List Volume := []
deriving DecidableEq, Repr

structure PodTemplateSpec where
  Labels : LabelMap := []
  Finalizers : List String := []
  TemplateSpec : PodSpec := {}
deriving DecidableEq, Repr

structure LabelSelector where
  MatchLabels : LabelMap := []
deriving DecidableEq, Repr

structure DaemonSetSpec where
  Selector : Option LabelSelector := none
  Template : PodTemplateSpec := {}
deriving DecidableEq, Repr

structure DaemonSet where
  Name : String := ""
  Labels : LabelMap := []
  Spec : DaemonSetSpec := {}
  OwnerRef : Option String := none
deriving DecidableEq, Repr

/-- Labels of a pod, as consumed by GetNodeLabelFromPod. -/
structure Pod where
  Labels : LabelMap := []
deriving DecidableEq, Repr

structure ModprobeArgs where
  Load : List String := []
  Unload : List String := []
deriving DecidableEq, Repr

structure ModprobeSpec where
  ModuleName : String := ""
  DirName : String := ""
  Args : Option ModprobeArgs := none
  RawArgs : Option ModprobeArgs := none
  Parameters : List String := []
  FirmwarePath : String := ""
deriving DecidableEq, Repr

structure ModuleLoaderContainerSpec where
  ImagePullPolicy : String := ""
  Modprobe : ModprobeSpec := {}
deriving DecidableEq, Repr

structure ModuleLoaderSpec where
  Container : ModuleLoaderContainerSpec := {}
  ServiceAccountName : String := ""
deriving DecidableEq, Repr

structure DevicePluginContainerSpec where
  Args : List String := []
  Command : List String := []
  Env : List EnvVar := []
  Image : String := ""
  ImagePullPolicy : String := ""
  Resources : ResourceRequirements := {}
  VolumeMounts : List VolumeMount := []
deriving DecidableEq, Repr

structure DevicePluginSpec where
  Container : DevicePluginContainerSpec := {}
  ServiceAccountName : String := ""
  Volumes : List Volume := []
deriving DecidableEq, Repr

structure ModuleSpec where
  ModuleLoader : ModuleLoaderSpec := {}
  DevicePlugin : Option DevicePluginSpec := none
  Selector : LabelMap := []
  ImageRepoSecret : Option LocalObjectReference := none
deriving DecidableEq, Repr

structure Module where
  Name : String := ""
  Spec : ModuleSpec := {}
deriving DecidableEq, Repr

/- Command synthesis: MakeLoadCommand / MakeUnloadCommand
(daemonset.go lines 370-436). -/

/-- Lines 383-386 of MakeLoadCommand: prepend the firmware staging step when
FirmwarePath is set; `path` is `nodeVarLibFirmwarePath ++ "/" ++ modName`. -/
def loadFirmwareStep (fw path loadCommand : String) : String :=
  if fw ≠ "" then
    "cp -r " ++ fw ++ " " ++ path ++ " && " ++ loadCommand
  else loadCommand

/-- Lines 387-391 of MakeLoadCommand: append Args.Load verbatim when set,
otherwise the default verbosity flag. -/
def loadArgsStep (args : Option ModprobeArgs) (loadCommand : String) : String :=
  match args with
  | some a =>
    if a.Load.length > 0 then loadCommand ++ " " ++ String.intercalate " " a.Load
    else loadCommand ++ " -v"
  | none => loadCommand ++ " -v"

/-- Lines 393-395 of MakeLoadCommand (and 425-427 of MakeUnloadCommand):
append the directory flag when DirName is set. -/
def loadDirStep (dirName loadCommand : String) : String :=
  if dirName ≠ "" then loadCommand ++ " -d " ++ dirName else loadCommand

/-- Lines 399-401 of MakeLoadCommand: append the parameters when present. -/
def loadParametersStep (params : List String) (loadCommand : String) : String :=
  if params.length > 0 then
    loadCommand ++ " " ++ String.intercalate " " params
  else loadCommand

/-- Lines 383-401 of MakeLoadCommand: the derivation used when RawArgs.Load
is not set.  `loadCommand` arrives as "modprobe". -/
def makeLoadCommandRest (spec : ModprobeSpec) (modName : String) (loadCommand : String) : String :=
  let loadCommand := loadFirmwareStep spec.FirmwarePath (nodeVarLibFirmwarePath ++ "/" ++ modName) loadCommand
  let loadCommand := loadArgsStep spec.Args loadCommand
  let loadCommand := loadDirStep spec.DirName loadCommand
  let loadCommand := loadCommand ++ " " ++ spec.ModuleName
  loadParametersStep spec.Parameters loadCommand

def MakeLoadCommand (spec : ModprobeSpec) (modName : String) : List String :=
  let loadCommandShell := ["/bin/sh", "-c"]
  let loadCommand := "modprobe"
  match spec.RawArgs with
  | some ra =>
    if ra.Load.length > 0 then
      loadCommandShell ++ [loadCommand ++ " " ++ String.intercalate " " ra.Load]
    else
      loadCommandShell ++ [makeLoadCommandRest spec modName loadCommand]
  | none => loadCommandShell ++ [makeLoadCommandRest spec modName loadCommand]

/-- Lines 419-433 of MakeUnloadCommand: the derivation used when
RawArgs.Unload is not set. -/
def makeUnloadCommandRest (spec : ModprobeSpec) (modName : String) (unloadCommand : String) : String :=
  let unloadCommand :=
    match spec.Args with
    | some a =>
      if a.Unload.length > 0 then unloadCommand ++ " " ++ String.intercalate " " a.Unload
      else unloadCommand ++ " -rv"
    | none => unloadCommand ++ " -rv"
  let unloadCommand :=
    if spec.DirName ≠ "" then unloadCommand ++ " -d " ++ spec.DirName else unloadCommand
  let unloadCommand := unloadCommand ++ " " ++ spec.ModuleName
  if spec.FirmwarePath ≠ "" then
    unloadCommand ++ " && rm -rf " ++ (nodeVarLibFirmwarePath ++ "/" ++ modName)
  else unloadCommand

def MakeUnloadCommand (spec : ModprobeSpec) (modName : String) : List String :=
  let unloadCommandShell := ["/bin/sh", "-c"]
  let unloadCommand := "modprobe"
  match spec.RawArgs with
  | some ra =>
    if ra.Unload.length > 0 then
      unloadCommandShell ++ [unloadCommand ++ " " ++ String.intercalate " " ra.Unload]
    else
      unloadCommandShell ++ [makeUnloadCommandRest spec modName unloadCommand]
  | none => unloadCommandShell ++ [makeUnloadCommandRest spec modName unloadCommand]

/-- The words contributed by the loadArgsStep: Args.Load when set, else the
default verbosity flag. -/
def argsLoadWords (args : Option ModprobeArgs) : List String :=
  match args with
  | some a => if a.Load.length > 0 then a.Load else ["-v"]
  | none => ["-v"]

/-- Word-level view of the command string built by makeLoadCommandRest, up to
but not including the module name: firmware-staging words, "modprobe", the
load arguments (or the default "-v"), and the directory flag.  The full
command is the space-join of `loadPreWords ++ ModuleName :: Parameters`. -/
def loadPreWords (spec : ModprobeSpec) (modName : String) : List String :=
  (if spec.FirmwarePath ≠ "" then
    ["cp", "-r", spec.FirmwarePath, nodeVarLibFirmwarePath ++ "/" ++ modName, "&&"]
  else []) ++
  ["modprobe"] ++
  argsLoadWords spec.Args ++
  (if spec.DirName ≠ "" then ["-d", spec.DirName] else [])

/- Garbage collection and lookup (daemonset.go lines 57-93, 319-321). -/

/-- Line 319-321: a DaemonSet is the device-plugin one iff its own
kernel-version label value is the sentinel empty string. -/
def isDevicePluginDaemonSet (kernelLabel : String) (ds : DaemonSet) : Bool :=
  labelsGet ds.Labels kernelLabel == ""

/-- Lines 57-71.  The existing DaemonSets arrive as an association list from
kernel-version keys to DaemonSets (the Go map, in some iteration order);
`validKernels` is the sets.String argument; `del` is the external object
store's Delete.  On a delete failure the error is wrapped and returned
immediately, discarding the names accumulated so far, exactly as the Go
code returns `nil, fmt.Errorf(...)`. -/
def GarbageCollect (kernelLabel : String) (del : DaemonSet → Except String Unit)
    (existingDS : List (String × DaemonSet)) (validKernels : List String) :
    Except String (List String) :=
  match existingDS with
  | [] => .ok []
  | (kernelVersion, ds) :: rest =>
    if !isDevicePluginDaemonSet kernelLabel ds && !validKernels.contains kernelVersion then
      match del ds with
      | .error e => .error ("could not delete DaemonSet " ++ ds.Name ++ ": " ++ e)
      | .ok _ =>
        match GarbageCollect kernelLabel del rest validKernels with
        | .error e => .error e
        | .ok deleted => .ok (ds.Name :: deleted)
    else
      GarbageCollect kernelLabel del rest validKernels

/-- Loop body of ModuleDaemonSetsByKernelVersion (lines 81-90): index the
listed DaemonSets by their kernel-version label, failing when the key is
already bound (the Go `dsByKernelVersion[kernelVersion] != nil` check). -/
def moduleDaemonSetsIndex (kernelLabel : String)
    (acc : List (String × DaemonSet)) :
    List DaemonSet → Except String (List (String × DaemonSet))
  | [] => .ok acc
  | ds :: rest =>
    let kernelVersion := labelsGet ds.Labels kernelLabel
    if (acc.lookup kernelVersion).isSome then
      .error ("multiple DaemonSets found for kernel " ++ kernelVersion)
    else
      moduleDaemonSetsIndex kernelLabel (acc ++ [(kernelVersion, ds)]) rest

/-- Lines 73-93, with the external client.List already performed: `dsList`
is the list of DaemonSets labelled with the module's name in its
namespace. -/
def ModuleDaemonSetsByKernelVersion (kernelLabel : String) (dsList : List DaemonSet) :
    Except String (List (String × DaemonSet)) :=
  moduleDaemonSetsIndex kernelLabel [] dsList

/- Node readiness labels (lines 299-305, 334-348) and small helpers
(lines 323-368). -/

def getDriverContainerNodeLabel (moduleName : String) : String :=
  "kmm.node.kubernetes.io/" ++ moduleName ++ ".ready"

def getDevicePluginNodeLabel (moduleName : String) : String :=
  "kmm.node.kubernetes.io/" ++ moduleName ++ ".device-plugin-ready"

def IsDevicePluginKernelVersion (kernelVersion : String) : Bool :=
  kernelVersion == devicePluginKernelVersion

def GetDevicePluginKernelVersion : String := devicePluginKernelVersion

def GetNodeLabelFromPod (kernelLabel : String) (pod : Pod) (moduleName : String) : String :=
  let kernelVersion := labelsGet pod.Labels kernelLabel
  if kernelVersion = devicePluginKernelVersion then
    getDevicePluginNodeLabel moduleName
  else
    getDriverContainerNodeLabel moduleName

/-- Lines 350-356.  The Go function returns the nil slice when the secret is
nil; `Option (List _)` keeps the nil slice (`none`) distinct from an empty
non-nil slice (`some []`), as Go itself does. -/
def GetPodPullSecrets (secret : Option LocalObjectReference) : Option (List LocalObjectReference) :=
  match secret with
  | none => none
  | some s => some [s]

def CopyMapStringString (m : LabelMap) : LabelMap :=
  m.foldl (fun n p => mapInsert n p.1 p.2) []

def OverrideLabels (labels overrides : LabelMap) : LabelMap :=
  overrides.foldl (fun l p => mapInsert l p.1 p.2) labels

/- Workload generators (lines 95-297). -/

/-- Modelled from the spec: controllerutil.SetControllerReference from
controller-runtime (outside this repository) attaches an owner reference
tying the DaemonSet's lifecycle to the Module; recorded here as the owning
module's name. -/
def setControllerReference (mod : Module) (ds : DaemonSet) : DaemonSet :=
  { ds with OwnerRef := some mod.Name }

/-- Lines 95-227.  The Go method mutates `*ds` in place after validating its
inputs; the pair returned here is (returned error, state of the target after
the call), so an unchanged second component models an untouched target. -/
def SetDriverContainerAsDesired (kernelLabel : String) (ds : Option DaemonSet)
    (image : String) (mod : Module) (kernelVersion : String) :
    Except String Unit × Option DaemonSet :=
  match ds with
  | none => (.error "ds cannot be nil", none)
  | some ds0 =>
    if image = "" then (.error "image cannot be empty", some ds0)
    else if kernelVersion = "" then (.error "kernelVersion cannot be empty", some ds0)
    else
      let standardLabels : LabelMap :=
        [(ModuleNameLabel, mod.Name), (kernelLabel, kernelVersion), (DaemonSetRole, "module-loader")]
      let ds1 := { ds0 with Labels := OverrideLabels ds0.Labels standardLabels }
      let nodeSelector := mapInsert (CopyMapStringString mod.Spec.Selector) kernelLabel kernelVersion
      let container : Container := {
        Command := ["sleep", "infinity"]
        Name := "module-loader"
        Image := image
        ImagePullPolicy := mod.Spec.ModuleLoader.Container.ImagePullPolicy
        ContainerLifecycle := some {
          PostStart := some { Exec := some { Command := MakeLoadCommand mod.Spec.ModuleLoader.Container.Modprobe mod.Name } }
          PreStop := some { Exec := some { Command := MakeUnloadCommand mod.Spec.ModuleLoader.Container.Modprobe mod.Name } } }
        Security := some {
          AllowPrivilegeEscalation := some false
          Caps := some { Add := ["SYS_MODULE"] }
          RunAsUser := some 0
          SELinux := some { SEType := "spc_t" } }
        VolumeMounts := [
          { Name := nodeLibModulesVolumeName, ReadOnly := true, MountPath := nodeLibModulesPath },
          { Name := nodeUsrLibModulesVolumeName, ReadOnly := true, MountPath := nodeUsrLibModulesPath }] }
      let volumes : List Volume := [
        { Name := nodeLibModulesVolumeName
          HostPath := some { Path := nodeLibModulesPath, HostPathType := "Directory" } },
        { Name := nodeUsrLibModulesVolumeName
          HostPath := some { Path := nodeUsrLibModulesPath, HostPathType := "Directory" } }]
      let fw := mod.Spec.ModuleLoader.Container.Modprobe.FirmwarePath
      let moduleFirmwarePath := nodeVarLibFirmwarePath ++ "/" ++ mod.Name
      let volumes :=
        if fw ≠ "" then
          volumes ++ [{ Name := nodeVarLibFirmwareVolumeName
                        HostPath := some { Path := moduleFirmwarePath, HostPathType := "DirectoryOrCreate" } }]
        else volumes
      let container :=
        if fw ≠ "" then
          { container with VolumeMounts := container.VolumeMounts ++
              [{ Name := nodeVarLibFirmwareVolumeName, MountPath := moduleFirmwarePath }] }
        else container
      let ds2 := { ds1 with Spec := {
        Template := {
          Labels := standardLabels
          Finalizers := [NodeLabelerFinalizer]
          TemplateSpec := {
            Containers := [container]
            ImagePullSecrets := GetPodPullSecrets mod.Spec.ImageRepoSecret
            NodeSelector := nodeSelector
            PriorityClassName := "system-node-critical"
            ServiceAccountName := mod.Spec.ModuleLoader.ServiceAccountName
            Volumes := volumes } }
        Selector := some { MatchLabels := standardLabels } } }
      (.ok (), some (setControllerReference mod ds2))

/-- Lines 229-297, modelled like SetDriverContainerAsDesired. -/
def SetDevicePluginAsDesired (ds : Option DaemonSet) (mod : Module) :
    Except String Unit × Option DaemonSet :=
  match ds with
  | none => (.error "ds cannot be nil", none)
  | some ds0 =>
    match mod.Spec.DevicePlugin with
    | none => (.error "device plugin in module should not be nil", some ds0)
    | some dp =>
      let containerVolumeMounts : List VolumeMount :=
        [{ Name := kubeletDevicePluginsVolumeName, MountPath := kubeletDevicePluginsPath }]
      let devicePluginVolume : Volume := {
        Name := kubeletDevicePluginsVolumeName
        HostPath := some { Path := kubeletDevicePluginsPath, HostPathType := "Directory" } }
      let standardLabels : LabelMap :=
        [(ModuleNameLabel, mod.Name), (DaemonSetRole, "device-plugin")]
      let ds1 := { ds0 with Labels := OverrideLabels ds0.Labels standardLabels }
      let ds2 := { ds1 with Spec := {
        Selector := some { MatchLabels := standardLabels }
        Template := {
          Labels := standardLabels
          Finalizers := [NodeLabelerFinalizer]
          TemplateSpec := {
            Containers := [{
              Args := dp.Container.Args
              Command := dp.Container.Command
              Env := dp.Container.Env
              Name := "device-plugin"
              Image := dp.Container.Image
              ImagePullPolicy := dp.Container.ImagePullPolicy
              Resources := dp.Container.Resources
              Security := some { Privileged := some true }
              VolumeMounts := dp.Container.VolumeMounts ++ containerVolumeMounts }]
            PriorityClassName := "system-node-critical"
            ImagePullSecrets := GetPodPullSecrets mod.Spec.ImageRepoSecret
            NodeSelector := [(getDriverContainerNodeLabel mod.Name, "")]
            ServiceAccountName := dp.ServiceAccountName
            Volumes := [devicePluginVolume] ++ dp.Volumes } } } }
      (.ok (), some (setControllerReference mod ds2))

/-- The firmware scenario of claim C8. -/
def firmwareScenarioSpec : ModprobeSpec :=
  { ModuleName := "m", FirmwarePath := "/var/lib/firmware/m", Parameters := ["p1=1"] }

/-! Helper lemmas about `String.intercalate` viewed through its `go`
accumulator, used to relate the synthesized command strings to their
word-level decomposition. -/

lemma intercalate_go_acc_append (s : String) : ∀ (as : List String) (acc b : String),
    String.intercalate.go (acc ++ b) s as = acc ++ String.intercalate.go b s as := by
  intro as
  induction as with
  | nil => intro acc b; simp [String.intercalate.go]
  | cons c cs ih =>
    intro acc b
    simp only [String.intercalate.go]
    rw [String.append_assoc acc b s, String.append_assoc acc (b ++ s) c]
    exact ih acc (b ++ s ++ c)

lemma intercalate_singleton (s a : String) : String.intercalate s [a] = a := rfl

lemma intercalate_cons (s a : String) (as : List String) (h : as ≠ []) :
    String.intercalate s (a :: as) = a ++ s ++ String.intercalate s as := by
  cases as with
  | nil => exact absurd rfl h
  | cons b bs =>
    simp only [String.intercalate, String.intercalate.go]
    rw [intercalate_go_acc_append s bs (a ++ s) b]

lemma intercalate_append (s : String) (l rest : List String) (hl : l ≠ []) (hr : rest ≠ []) :
    String.intercalate s (l ++ rest) =
      String.intercalate s l ++ s ++ String.intercalate s rest := by
  induction l with
  | nil => exact absurd rfl hl
  | cons a as ih =>
    cases as with
    | nil =>
      rw [List.singleton_append, intercalate_cons s a rest hr, intercalate_singleton]
    | cons b bs =>
      rw [List.cons_append, intercalate_cons s a ((b :: bs) ++ rest) (by simp),
        ih (by simp), intercalate_cons s a (b :: bs) (by simp)]
      simp [String.append_assoc]

lemma append_word_words (c w : String) (ws : List String) (hws : ws ≠ [])
    (h : c = String.intercalate " " ws) :
    c ++ " " ++ w = String.intercalate " " (ws ++ [w]) := by
  rw [intercalate_append " " ws [w] hws (by simp), intercalate_singleton, h]

lemma loadFirmwareStep_words (fw path c : String) (ws : List String) (hws : ws ≠ [])
    (h : c = String.intercalate " " ws) :
    loadFirmwareStep fw path c =
      String.intercalate " " ((if fw ≠ "" then ["cp", "-r", fw, path, "&&"] else []) ++ ws) := by
  by_cases hfw : fw = ""
  · simp [loadFirmwareStep, hfw, h]
  · rw [loadFirmwareStep, if_pos hfw, if_pos hfw,
      intercalate_append " " _ ws (by simp) hws,
      intercalate_cons " " "cp" _ (by simp), intercalate_cons " " "-r" _ (by simp),
      intercalate_cons " " fw _ (by simp), intercalate_cons " " path _ (by simp),
      intercalate_singleton, h]
    apply String.ext
    simp [String.data_append]

lemma loadArgsStep_words (args : Option ModprobeArgs) (c : String) (ws : List String)
    (hws : ws ≠ []) (h : c = String.intercalate " " ws) :
    loadArgsStep args c = String.intercalate " " (ws ++ argsLoadWords args) := by
  have hv : c ++ " -v" = String.intercalate " " (ws ++ ["-v"]) := by
    rw [intercalate_append " " ws ["-v"] hws (by simp), intercalate_singleton, h]
    apply String.ext
    simp [String.data_append]
  match args with
  | none => exact hv
  | some a =>
    by_cases hl : a.Load.length > 0
    · rw [loadArgsStep, if_pos hl, argsLoadWords, if_pos hl,
        intercalate_append " " ws a.Load hws (by simpa using List.length_pos.mp hl), h]
    · rw [loadArgsStep, if_neg hl, argsLoadWords, if_neg hl]
      exact hv

lemma loadDirStep_words (dirName c : String) (ws : List String) (hws : ws ≠ [])
    (h : c = String.intercalate " " ws) :
    loadDirStep dirName c =
      String.intercalate " " (ws ++ (if dirName ≠ "" then ["-d", dirName] else [])) := by
  by_cases hd : dirName = ""
  · simp [loadDirStep, hd, h]
  · rw [loadDirStep, if_pos hd, if_pos hd,
      intercalate_append " " ws _ hws (by simp),
      intercalate_cons " " "-d" _ (by simp), intercalate_singleton, h]
    apply String.ext
    simp [String.data_append]

lemma loadParametersStep_words (params : List String) (c : String) (ws : List String)
    (hws : ws ≠ []) (h : c = String.intercalate " " ws) :
    loadParametersStep params c = String.intercalate " " (ws ++ params) := by
  match params with
  | [] => simpa [loadParametersStep] using h
  | p :: ps =>
    rw [loadParametersStep, if_pos (by simp),
      intercalate_append " " ws (p :: ps) hws (by simp), h]

/-- The command string built by makeLoadCommandRest is the space-join of
`loadPreWords spec modName ++ ModuleName :: Parameters`. -/
lemma makeLoadCommandRest_words (spec : ModprobeSpec) (modName : String) :
    makeLoadCommandRest spec modName "modprobe" =
      String.intercalate " "
        (loadPreWords spec modName ++ spec.ModuleName :: spec.Parameters) := by
  have h1 := loadFirmwareStep_words spec.FirmwarePath
    (nodeVarLibFirmwarePath ++ "/" ++ modName) "modprobe" ["modprobe"] (by simp) rfl
  have h2 := loadArgsStep_words spec.Args _ _ (by simp) h1
  have h3 := loadDirStep_words spec.DirName _ _ (by simp [List.append_eq_nil]) h2
  have h4 := append_word_words _ spec.ModuleName _ (by simp [List.append_eq_nil]) h3
  have h5 := loadParametersStep_words spec.Parameters _ _ (by simp [List.append_eq_nil]) h4
  refine h5.trans (congrArg (String.intercalate " ") ?_)
  simp [loadPreWords, List.append_assoc]

/-- C3: for any two ModprobeSpec values with the same module name and the
same non-empty RawArgs.Load, MakeLoadCommand returns the same output
regardless of their Args, DirName, FirmwarePath and Parameters fields, and
that output is the triple ("/bin/sh", "-c", "modprobe " followed by the raw
load args joined by spaces). -/
theorem makeLoadCommand_rawArgs_only (s1 s2 : ModprobeSpec) (n : String)
    (ra1 ra2 : ModprobeArgs)
    (h1 : s1.RawArgs = some ra1) (h2 : s2.RawArgs = some ra2)
    (_hname : s1.ModuleName = s2.ModuleName)
    (hload : ra1.Load = ra2.Load) (hne : ra1.Load ≠ []) :
    MakeLoadCommand s1 n = MakeLoadCommand s2 n ∧
    MakeLoadCommand s1 n =
      ["/bin/sh", "-c", "modprobe " ++ String.intercalate " " ra1.Load] := by
  have hpos1 : ra1.Load.length > 0 := List.length_pos.mpr hne
  have hpos2 : ra2.Load.length > 0 := by rw [← hload]; exact hpos1
  have spc : ∀ l : List String,
      "modprobe" ++ " " ++ String.intercalate " " l =
        "modprobe " ++ String.intercalate " " l := by
    intro l
    apply String.ext
    simp [String.data_append]
  have e1 : MakeLoadCommand s1 n =
      ["/bin/sh", "-c", "modprobe " ++ String.intercalate " " ra1.Load] := by
    unfold MakeLoadCommand
    rw [h1]
    simp only [hpos1, if_true, spc]
    rfl
  have e2 : MakeLoadCommand s2 n =
      ["/bin/sh", "-c", "modprobe " ++ String.intercalate " " ra2.Load] := by
    unfold MakeLoadCommand
    rw [h2]
    simp only [hpos2, if_true, spc]
    rfl
  refine ⟨?_, e1⟩
  rw [e1, e2, hload]

/-- Witness for C3 at concrete inputs: two specs sharing module name "m" and
RawArgs.Load = ["a", "b"] but differing in Args, DirName, FirmwarePath and
Parameters produce the same command. -/
theorem makeLoadCommand_rawArgs_only_witness :
    MakeLoadCommand { ModuleName := "m", RawArgs := some { Load := ["a", "b"] }, Parameters := ["p"] } "m" =
      MakeLoadCommand { ModuleName := "m", DirName := "/d", FirmwarePath := "/fw", Args := some { Load := ["x"] }, RawArgs := some { Load := ["a", "b"] } } "m" ∧
    MakeLoadCommand { ModuleName := "m", RawArgs := some { Load := ["a", "b"] }, Parameters := ["p"] } "m" =
      ["/bin/sh", "-c", "modprobe " ++ String.intercalate " " ["a", "b"]] :=
  makeLoadCommand_rawArgs_only
    { ModuleName := "m", RawArgs := some { Load := ["a", "b"] }, Parameters := ["p"] }
    { ModuleName := "m", DirName := "/d", FirmwarePath := "/fw", Args := some { Load := ["x"] }, RawArgs := some { Load := ["a", "b"] } }
    "m" { Load := ["a", "b"] } { Load := ["a", "b"] } rfl rfl rfl rfl (by simp)

/-- Counterexample to C4 as stated: a spec without RawArgs whose module name
also occurs among the Parameters yields a load command in which the module
name appears twice, not exactly once. -/
theorem makeLoadCommand_moduleName_once_cex :
    MakeLoadCommand { ModuleName := "m", Parameters := ["m"] } "m" =
      ["/bin/sh", "-c", "modprobe -v m m"] ∧
    (loadPreWords { ModuleName := "m", Parameters := ["m"] } "m" ++
      "m" :: ["m"]).count "m" = 2 := by
  exact ⟨rfl, rfl⟩

/-- C4 (amended): for every ModprobeSpec without RawArgs whose module name
does not occur among the other command words (the firmware-staging words,
"modprobe", the load arguments or default flag, the directory flag words)
nor among the Parameters, the load command is the space-join of those words
followed by the module name and then the Parameters in original order, and
the module name occurs exactly once among the command's words. -/
theorem makeLoadCommand_moduleName_once (spec : ModprobeSpec) (modName : String)
    (hraw : spec.RawArgs = none)
    (hpre : spec.ModuleName ∉ loadPreWords spec modName)
    (hpar : spec.ModuleName ∉ spec.Parameters) :
    MakeLoadCommand spec modName =
      ["/bin/sh", "-c",
        String.intercalate " " (loadPreWords spec modName ++ spec.ModuleName :: spec.Parameters)] ∧
    (loadPreWords spec modName ++ spec.ModuleName :: spec.Parameters).count spec.ModuleName = 1 := by
  constructor
  · unfold MakeLoadCommand
    rw [hraw]
    exact congrArg (fun c => ["/bin/sh", "-c", c]) (makeLoadCommandRest_words spec modName)
  · rw [List.count_append, List.count_cons_self,
      List.count_eq_zero.mpr hpre, List.count_eq_zero.mpr hpar]

/-- Witness for C4 (amended) at a concrete spec using FirmwarePath, Args,
DirName and Parameters. -/
theorem makeLoadCommand_moduleName_once_witness :
    MakeLoadCommand { ModuleName := "mymod", DirName := "/dir", Args := some { Load := ["-q"] }, Parameters := ["p1=1", "p2=2"], FirmwarePath := "/fw" } "mymod" =
      ["/bin/sh", "-c",
        String.intercalate " "
          (loadPreWords { ModuleName := "mymod", DirName := "/dir", Args := some { Load := ["-q"] }, Parameters := ["p1=1", "p2=2"], FirmwarePath := "/fw" } "mymod" ++ "mymod" :: ["p1=1", "p2=2"])] ∧
    (loadPreWords { ModuleName := "mymod", DirName := "/dir", Args := some { Load := ["-q"] }, Parameters := ["p1=1", "p2=2"], FirmwarePath := "/fw" } "mymod" ++ "mymod" :: ["p1=1", "p2=2"]).count "mymod" = 1 :=
  makeLoadCommand_moduleName_once
    { ModuleName := "mymod", DirName := "/dir", Args := some { Load := ["-q"] }, Parameters := ["p1=1", "p2=2"], FirmwarePath := "/fw" } "mymod"
    rfl (by decide) (by decide)

/-- C5: for every pod-label map and module name, GetNodeLabelFromPod returns
the device-plugin-ready key "kmm.node.kubernetes.io/(moduleName).device-plugin-ready"
exactly when the pod's kernel-version label equals the empty-string sentinel,
and otherwise the driver-ready key "kmm.node.kubernetes.io/(moduleName).ready";
the two keys are always distinct, so the result is never both and never
neither. -/
theorem getNodeLabelFromPod_spec (kernelLabel : String) (pod : Pod) (moduleName : String) :
    (labelsGet pod.Labels kernelLabel = "" →
      GetNodeLabelFromPod kernelLabel pod moduleName =
        "kmm.node.kubernetes.io/" ++ moduleName ++ ".device-plugin-ready") ∧
    (labelsGet pod.Labels kernelLabel ≠ "" →
      GetNodeLabelFromPod kernelLabel pod moduleName =
        "kmm.node.kubernetes.io/" ++ moduleName ++ ".ready") ∧
    "kmm.node.kubernetes.io/" ++ moduleName ++ ".device-plugin-ready" ≠
      "kmm.node.kubernetes.io/" ++ moduleName ++ ".ready" := by
  refine ⟨fun h => ?_, fun h => ?_, fun h => ?_⟩
  · simp only [GetNodeLabelFromPod, devicePluginKernelVersion]
    rw [if_pos h]
    rfl
  · simp only [GetNodeLabelFromPod, devicePluginKernelVersion]
    rw [if_neg h]
    rfl
  · have hlen := congrArg String.length h
    simp [String.length_append] at hlen
    exact absurd hlen (by decide)

/-- Witness for C5 at concrete inputs: a device-plugin pod (kernel-version
label empty by absence) and a module-loader pod (label "5.10"). -/
theorem getNodeLabelFromPod_spec_witness :
    GetNodeLabelFromPod "kver" { Labels := [] } "m" =
      "kmm.node.kubernetes.io/" ++ "m" ++ ".device-plugin-ready" ∧
    GetNodeLabelFromPod "kver" { Labels := [("kver", "5.10")] } "m" =
      "kmm.node.kubernetes.io/" ++ "m" ++ ".ready" :=
  ⟨(getNodeLabelFromPod_spec "kver" { Labels := [] } "m").1 rfl,
   (getNodeLabelFromPod_spec "kver" { Labels := [("kver", "5.10")] } "m").2.1 (by decide)⟩

/-- Counterexample to C6 as stated: when the image-repo pull secret is
absent, GetPodPullSecrets returns the nil slice (`none`), not the non-nil
empty list (`some []`). -/
theorem getPodPullSecrets_cex :
    GetPodPullSecrets none = none ∧
    GetPodPullSecrets none ≠ some ([] : List LocalObjectReference) :=
  ⟨rfl, by decide⟩

/-- C6 (amended): when the module's image-repo pull secret is absent,
GetPodPullSecrets returns the nil list (Go's nil slice, which has zero
elements but serializes as null, not as an empty list); when the secret is
present it returns the one-element list containing exactly that secret
reference. -/
theorem getPodPullSecrets_spec :
    GetPodPullSecrets none = none ∧
    ∀ s : LocalObjectReference, GetPodPullSecrets (some s) = some [s] :=
  ⟨rfl, fun _ => rfl⟩

/-- Boolean membership agrees with propositional membership for the
validKernels set. -/
lemma list_contains_iff (l : List String) (a : String) : l.contains a = true ↔ a ∈ l := by
  simp [List.contains]

/-- When GarbageCollect returns ok, the returned names are exactly the names
of the entries that are not device-plugin DaemonSets (by their own
kernel-version label) and whose map key is not a valid kernel, in iteration
order.  Shared by the garbage-collection claims. -/
lemma garbageCollect_ok_characterization (kernelLabel : String)
    (del : DaemonSet → Except String Unit) (validKernels : List String) :
    ∀ (existingDS : List (String × DaemonSet)) (deleted : List String),
      GarbageCollect kernelLabel del existingDS validKernels = Except.ok deleted →
      deleted = (existingDS.filter
          (fun p => !isDevicePluginDaemonSet kernelLabel p.2 &&
            !validKernels.contains p.1)).map (fun p => p.2.Name) := by
  intro existingDS
  induction existingDS with
  | nil =>
    intro deleted h
    rw [GarbageCollect] at h
    simp only [Except.ok.injEq] at h
    simp [← h]
  | cons p rest ih =>
    obtain ⟨kv, ds⟩ := p
    intro deleted h
    rw [GarbageCollect] at h
    by_cases hc : (!isDevicePluginDaemonSet kernelLabel ds && !validKernels.contains kv) = true
    · rw [if_pos hc] at h
      cases hdel : del ds with
      | error e => rw [hdel] at h; exact absurd h (by simp)
      | ok u =>
        rw [hdel] at h
        cases hrec : GarbageCollect kernelLabel del rest validKernels with
        | error e => rw [hrec] at h; exact absurd h (by simp)
        | ok names =>
          rw [hrec] at h
          simp only [Except.ok.injEq] at h
          rw [← h, List.filter_cons, if_pos hc, List.map_cons, ih names hrec]
    · rw [if_neg hc] at h
      rw [ih deleted h, List.filter_cons, if_neg hc]

/-- Counterexample to C1 as stated: with the map entry keyed "k1" holding a
DaemonSet whose own kernel-version label is the sentinel empty string (the
device-plugin workload), and validKernels empty, the key "k1" is neither the
sentinel nor a member of validKernels, so C1 demands its deletion — but
GarbageCollect succeeds deleting nothing, because it classifies by the
workload's label, not the map key. -/
theorem garbageCollect_key_based_cex :
    GarbageCollect "kver" (fun _ => Except.ok ())
      [("k1", { Name := "ds1" })] [] = Except.ok [] ∧
    ("k1" ≠ "" ∧ "k1" ∉ ([] : List String)) ∧
    ([] : List String) ≠ ["ds1"] :=
  ⟨rfl, ⟨by decide, by decide⟩, by decide⟩

/-- C1 (amended): for every map from kernel-version keys to workloads in
which each entry's key equals its workload's own kernel-version label (as
holds for the maps built by ModuleDaemonSetsByKernelVersion) and every set
validKernels, when GarbageCollect succeeds it deletes exactly those entries
whose key is not the device-plugin sentinel (empty string) and is not a
member of validKernels, returns the names of the deleted workloads, and
every deleted name belongs to a non-device-plugin entry, so the
device-plugin workload is never in the deleted list. -/
theorem garbageCollect_deletes_exactly_invalid (kernelLabel : String)
    (del : DaemonSet → Except String Unit)
    (existingDS : List (String × DaemonSet)) (validKernels : List String)
    (deleted : List String)
    (hkeys : ∀ p ∈ existingDS, labelsGet p.2.Labels kernelLabel = p.1)
    (hok : GarbageCollect kernelLabel del existingDS validKernels = Except.ok deleted) :
    deleted = (existingDS.filter
        (fun p => !(p.1 == "") && !validKernels.contains p.1)).map (fun p => p.2.Name) ∧
    ∀ n ∈ deleted, ∃ p ∈ existingDS, p.2.Name = n ∧ p.1 ≠ "" ∧ p.1 ∉ validKernels := by
  have hchar := garbageCollect_ok_characterization kernelLabel del validKernels
    existingDS deleted hok
  have hfilter : existingDS.filter
      (fun p => !isDevicePluginDaemonSet kernelLabel p.2 && !validKernels.contains p.1) =
      existingDS.filter (fun p => !(p.1 == "") && !validKernels.contains p.1) := by
    apply List.filter_congr
    intro p hp
    rw [isDevicePluginDaemonSet, hkeys p hp]
  have hmain : deleted = (existingDS.filter
      (fun p => !(p.1 == "") && !validKernels.contains p.1)).map (fun p => p.2.Name) := by
    rw [hchar, hfilter]
  refine ⟨hmain, ?_⟩
  intro n hn
  rw [hmain] at hn
  obtain ⟨p, hpf, hpn⟩ := List.mem_map.mp hn
  obtain ⟨hpmem, hpred⟩ := List.mem_filter.mp hpf
  refine ⟨p, hpmem, hpn, ?_, ?_⟩
  · intro hkey
    simp [hkey] at hpred
  · intro hvalid
    have hc := ((Bool.and_eq_true _ _).mp hpred).2
    rw [Bool.not_eq_true'] at hc
    have hv2 := (list_contains_iff validKernels p.1).mpr hvalid
    rw [hc] at hv2
    exact Bool.false_ne_true hv2

/-- Witness for C1 (amended): the spec's own scenario — a module-loader
workload for kernel "5.10", the device-plugin workload under the sentinel
key, and validKernels containing only "5.14" — deletes exactly the "5.10"
workload. -/
theorem garbageCollect_deletes_exactly_invalid_witness :
    ["ds1"] = (([("5.10", { Name := "ds1", Labels := [("kver", "5.10")] }),
        ("", { Name := "ds2", Labels := [("kver", "")] })] : List (String × DaemonSet)).filter
        (fun p => !(p.1 == "") && !(["5.14"].contains p.1))).map (fun p => p.2.Name) ∧
    ∀ n ∈ ["ds1"],
      ∃ p ∈ ([("5.10", { Name := "ds1", Labels := [("kver", "5.10")] }),
        ("", { Name := "ds2", Labels := [("kver", "")] })] : List (String × DaemonSet)),
        p.2.Name = n ∧ p.1 ≠ "" ∧ p.1 ∉ ["5.14"] :=
  garbageCollect_deletes_exactly_invalid "kver" (fun _ => Except.ok ())
    [("5.10", { Name := "ds1", Labels := [("kver", "5.10")] }),
     ("", { Name := "ds2", Labels := [("kver", "")] })]
    ["5.14"] ["ds1"] (by decide) rfl

/-- C10: GarbageCollect classifies a workload as the device-plugin one by
the workload's own kernel-version label, not its map key: when it succeeds,
the deleted names are exactly those of entries whose DaemonSet carries a
non-empty kernel-version label and whose key is not in validKernels — so an
entry carrying the empty label is never deleted however its key relates to
validKernels, and conversely an entry keyed by the empty string but carrying
a non-empty label is deleted whenever its key is not in validKernels. -/
theorem garbageCollect_classifies_by_label (kernelLabel : String)
    (del : DaemonSet → Except String Unit)
    (existingDS : List (String × DaemonSet)) (validKernels : List String)
    (deleted : List String)
    (hok : GarbageCollect kernelLabel del existingDS validKernels = Except.ok deleted) :
    deleted = (existingDS.filter
        (fun p => !isDevicePluginDaemonSet kernelLabel p.2 &&
          !validKernels.contains p.1)).map (fun p => p.2.Name) ∧
    (∀ n ∈ deleted, ∃ p ∈ existingDS,
      p.2.Name = n ∧ labelsGet p.2.Labels kernelLabel ≠ "" ∧ p.1 ∉ validKernels) ∧
    (∀ ds : DaemonSet, ("", ds) ∈ existingDS →
      labelsGet ds.Labels kernelLabel ≠ "" → "" ∉ validKernels → ds.Name ∈ deleted) := by
  have hchar := garbageCollect_ok_characterization kernelLabel del validKernels
    existingDS deleted hok
  refine ⟨hchar, ?_, ?_⟩
  · intro n hn
    rw [hchar] at hn
    obtain ⟨p, hpf, hpn⟩ := List.mem_map.mp hn
    obtain ⟨hpmem, hpred⟩ := List.mem_filter.mp hpf
    refine ⟨p, hpmem, hpn, ?_, ?_⟩
    · intro hlabel
      simp [isDevicePluginDaemonSet, hlabel] at hpred
    · intro hvalid
      have hc := ((Bool.and_eq_true _ _).mp hpred).2
      rw [Bool.not_eq_true'] at hc
      have hv2 := (list_contains_iff validKernels p.1).mpr hvalid
      rw [hc] at hv2
      exact Bool.false_ne_true hv2
  · intro ds hmem hlabel hvalid
    rw [hchar]
    refine List.mem_map.mpr ⟨("", ds), List.mem_filter.mpr ⟨hmem, ?_⟩, rfl⟩
    show (!isDevicePluginDaemonSet kernelLabel ds && !validKernels.contains "") = true
    rw [Bool.and_eq_true, Bool.not_eq_true', Bool.not_eq_true']
    constructor
    · rw [isDevicePluginDaemonSet]
      exact beq_false_of_ne hlabel
    · exact Bool.eq_false_iff.mpr
        (fun hc => hvalid ((list_contains_iff validKernels "").mp hc))

/-- Witness for C10: the device-plugin workload survives even under the
stale key "k1", while the entry keyed "" whose workload labels kernel "5.10"
is deleted. -/
theorem garbageCollect_classifies_by_label_witness :
    ["ds2"] = (([("k1", { Name := "ds1", Labels := [("kver", "")] }),
        ("", { Name := "ds2", Labels := [("kver", "5.10")] })] : List (String × DaemonSet)).filter
        (fun p => !isDevicePluginDaemonSet "kver" p.2 &&
          !([] : List String).contains p.1)).map (fun p => p.2.Name) ∧
    (∀ n ∈ ["ds2"], ∃ p ∈ ([("k1", { Name := "ds1", Labels := [("kver", "")] }),
        ("", { Name := "ds2", Labels := [("kver", "5.10")] })] : List (String × DaemonSet)),
      p.2.Name = n ∧ labelsGet p.2.Labels "kver" ≠ "" ∧ p.1 ∉ ([] : List String)) ∧
    (∀ ds : DaemonSet, ("", ds) ∈ ([("k1", { Name := "ds1", Labels := [("kver", "")] }),
        ("", { Name := "ds2", Labels := [("kver", "5.10")] })] : List (String × DaemonSet)) →
      labelsGet ds.Labels "kver" ≠ "" → "" ∉ ([] : List String) → ds.Name ∈ ["ds2"]) :=
  garbageCollect_classifies_by_label "kver" (fun _ => Except.ok ())
    [("k1", { Name := "ds1", Labels := [("kver", "")] }),
     ("", { Name := "ds2", Labels := [("kver", "5.10")] })]
    [] ["ds2"] rfl

/-- Association-list lookup succeeds exactly on the stored keys. -/
lemma lookup_isSome_iff {β : Type} (l : List (String × β)) (k : String) :
    (l.lookup k).isSome = true ↔ k ∈ l.map Prod.fst := by
  induction l with
  | nil => simp [List.lookup]
  | cons p ps ih =>
    obtain ⟨a, b⟩ := p
    by_cases hk : k = a
    · subst hk
      simp [List.lookup_cons]
    · simp only [List.lookup_cons, beq_false_of_ne hk, List.map_cons, List.mem_cons]
      simp [ih, hk]

/-- When no two listed DaemonSets (nor accumulated entries) share a
kernel-version label, the indexing loop succeeds and pairs every DaemonSet
with its label. -/
lemma moduleDaemonSetsIndex_ok (kernelLabel : String) :
    ∀ (dsList : List DaemonSet) (acc : List (String × DaemonSet)),
      (acc.map Prod.fst ++
        dsList.map (fun ds => labelsGet ds.Labels kernelLabel)).Nodup →
      moduleDaemonSetsIndex kernelLabel acc dsList =
        Except.ok (acc ++ dsList.map (fun ds => (labelsGet ds.Labels kernelLabel, ds))) := by
  intro dsList
  induction dsList with
  | nil => intro acc h; simp [moduleDaemonSetsIndex]
  | cons ds rest ih =>
    intro acc h
    rw [List.map_cons] at h
    have hnotin : labelsGet ds.Labels kernelLabel ∉ acc.map Prod.fst := by
      intro hmem
      rcases List.nodup_append.mp h with ⟨_, _, hdisj⟩
      exact hdisj hmem (List.mem_cons_self _ _)
    have hlookup : (acc.lookup (labelsGet ds.Labels kernelLabel)).isSome = false := by
      rw [← Bool.not_eq_true, lookup_isSome_iff]
      exact hnotin
    simp only [moduleDaemonSetsIndex]
    rw [if_neg (by rw [hlookup]; exact Bool.false_ne_true)]
    rw [ih (acc ++ [(labelsGet ds.Labels kernelLabel, ds)])
      (by simpa [List.append_assoc] using h)]
    simp

/-- When some kernel-version label repeats, the indexing loop fails. -/
lemma moduleDaemonSetsIndex_dup (kernelLabel : String) :
    ∀ (dsList : List DaemonSet) (acc : List (String × DaemonSet)),
      (acc.map Prod.fst).Nodup →
      ¬ (acc.map Prod.fst ++
        dsList.map (fun ds => labelsGet ds.Labels kernelLabel)).Nodup →
      ∃ e, moduleDaemonSetsIndex kernelLabel acc dsList = Except.error e := by
  intro dsList
  induction dsList with
  | nil =>
    intro acc hacc h
    rw [List.map_nil, List.append_nil] at h
    exact absurd hacc h
  | cons ds rest ih =>
    intro acc hacc h
    rw [List.map_cons] at h
    simp only [moduleDaemonSetsIndex]
    by_cases hmem : labelsGet ds.Labels kernelLabel ∈ acc.map Prod.fst
    · rw [if_pos ((lookup_isSome_iff acc _).mpr hmem)]
      exact ⟨_, rfl⟩
    · rw [if_neg (by rw [lookup_isSome_iff]; exact hmem)]
      apply ih (acc ++ [(labelsGet ds.Labels kernelLabel, ds)])
      · rw [List.map_append]
        refine List.nodup_append.mpr ⟨hacc, by simp, ?_⟩
        intro x hx
        simp only [List.map_cons, List.map_nil, List.mem_singleton]
        intro hxeq
        exact hmem (hxeq ▸ hx)
      · intro hnd
        exact h (by simpa [List.append_assoc] using hnd)

/-- C2: if two of the module's DaemonSets carry the same kernel-version
label value, ModuleDaemonSetsByKernelVersion returns an error rather than a
mapping silently keeping one of them; when no two share a label it returns
the mapping that indexes each DaemonSet by its kernel-version label. -/
theorem moduleDaemonSetsByKernelVersion_spec (kernelLabel : String) (dsList : List DaemonSet) :
    ((dsList.map (fun ds => labelsGet ds.Labels kernelLabel)).Nodup →
      ModuleDaemonSetsByKernelVersion kernelLabel dsList =
        Except.ok (dsList.map (fun ds => (labelsGet ds.Labels kernelLabel, ds)))) ∧
    (¬ (dsList.map (fun ds => labelsGet ds.Labels kernelLabel)).Nodup →
      ∃ e, ModuleDaemonSetsByKernelVersion kernelLabel dsList = Except.error e) := by
  constructor
  · intro hnd
    rw [ModuleDaemonSetsByKernelVersion,
      moduleDaemonSetsIndex_ok kernelLabel dsList [] (by simpa using hnd)]
    simp
  · intro hdup
    exact moduleDaemonSetsIndex_dup kernelLabel dsList [] (by simp)
      (by simpa using hdup)

/-- Witness for C2 at concrete inputs: two DaemonSets with distinct labels
index cleanly; two DaemonSets sharing label "1" produce an error. -/
theorem moduleDaemonSetsByKernelVersion_spec_witness :
    ModuleDaemonSetsByKernelVersion "kver"
      [{ Name := "d1", Labels := [("kver", "1")] }, { Name := "d2", Labels := [("kver", "2")] }] =
      Except.ok [("1", { Name := "d1", Labels := [("kver", "1")] }),
        ("2", { Name := "d2", Labels := [("kver", "2")] })] ∧
    ∃ e, ModuleDaemonSetsByKernelVersion "kver"
      [{ Name := "d1", Labels := [("kver", "1")] }, { Name := "d2", Labels := [("kver", "1")] }] =
      Except.error e :=
  ⟨(moduleDaemonSetsByKernelVersion_spec "kver"
      [{ Name := "d1", Labels := [("kver", "1")] }, { Name := "d2", Labels := [("kver", "2")] }]).1
      (by decide),
   (moduleDaemonSetsByKernelVersion_spec "kver"
      [{ Name := "d1", Labels := [("kver", "1")] }, { Name := "d2", Labels := [("kver", "1")] }]).2
      (by decide)⟩

/-- C7: SetDriverContainerAsDesired returns an error, with the target
workload left unchanged, whenever the target is nil, the image is empty, or
the kernel version is empty; SetDevicePluginAsDesired likewise returns an
error with the target unchanged whenever the target is nil or the module's
DevicePlugin section is absent.  Both are total Lean functions, so neither
can panic. -/
theorem generators_reject_invalid_input :
    (∀ (kernelLabel image kernelVersion : String) (ds : Option DaemonSet) (mod : Module),
      ds = none ∨ image = "" ∨ kernelVersion = "" →
      ∃ e, SetDriverContainerAsDesired kernelLabel ds image mod kernelVersion =
        (Except.error e, ds)) ∧
    (∀ (ds : Option DaemonSet) (mod : Module),
      ds = none ∨ mod.Spec.DevicePlugin = none →
      ∃ e, SetDevicePluginAsDesired ds mod = (Except.error e, ds)) := by
  constructor
  · intro kernelLabel image kernelVersion ds mod h
    match ds with
    | none => exact ⟨"ds cannot be nil", rfl⟩
    | some ds0 =>
      rcases h with h | h | h
      · exact Option.noConfusion h
      · subst h
        exact ⟨"image cannot be empty", by simp [SetDriverContainerAsDesired]⟩
      · subst h
        by_cases hi : image = ""
        · subst hi
          exact ⟨"image cannot be empty", by simp [SetDriverContainerAsDesired]⟩
        · exact ⟨"kernelVersion cannot be empty", by simp [SetDriverContainerAsDesired, hi]⟩
  · intro ds mod h
    match ds with
    | none => exact ⟨"ds cannot be nil", rfl⟩
    | some ds0 =>
      rcases h with h | h
      · exact Option.noConfusion h
      · exact ⟨"device plugin in module should not be nil",
          by simp [SetDevicePluginAsDesired, h]⟩

/-- Witness for C7 at concrete inputs: a nil target for the module loader
and a module without a DevicePlugin section for the device plugin. -/
theorem generators_reject_invalid_input_witness :
    (∃ e, SetDriverContainerAsDesired "kver" none "img" {} "5.10" =
      (Except.error e, none)) ∧
    (∃ e, SetDevicePluginAsDesired (some {}) {} = (Except.error e, some {})) :=
  ⟨generators_reject_invalid_input.1 "kver" "img" "5.10" none {} (Or.inl rfl),
   generators_reject_invalid_input.2 (some {}) {} (Or.inr rfl)⟩

/-- C9: for every module with a DevicePlugin section, the workload produced
by SetDevicePluginAsDesired has a pod node selector containing exactly one
key, the driver-readiness label "kmm.node.kubernetes.io/(moduleName).ready",
with the empty string as its value. -/
theorem setDevicePluginAsDesired_nodeSelector (ds : DaemonSet) (mod : Module)
    (dp : DevicePluginSpec) (hdp : mod.Spec.DevicePlugin = some dp) :
    ∃ ds2 : DaemonSet,
      SetDevicePluginAsDesired (some ds) mod = (Except.ok (), some ds2) ∧
      ds2.Spec.Template.TemplateSpec.NodeSelector =
        [("kmm.node.kubernetes.io/" ++ mod.Name ++ ".ready", "")] := by
  simp only [SetDevicePluginAsDesired, hdp]
  exact ⟨_, rfl, rfl⟩

/-- Witness for C9 at a concrete module named "m" with a default
DevicePlugin section. -/
theorem setDevicePluginAsDesired_nodeSelector_witness :
    ∃ ds2 : DaemonSet,
      SetDevicePluginAsDesired (some {}) { Name := "m", Spec := { DevicePlugin := some {} } } =
        (Except.ok (), some ds2) ∧
      ds2.Spec.Template.TemplateSpec.NodeSelector =
        [("kmm.node.kubernetes.io/" ++ "m" ++ ".ready", "")] :=
  setDevicePluginAsDesired_nodeSelector {} { Name := "m", Spec := { DevicePlugin := some {} } }
    {} rfl

/-- C8: for the ModprobeSpec with ModuleName "m", FirmwarePath
"/var/lib/firmware/m" and Parameters ["p1=1"] (no RawArgs, no Args, no
DirName), MakeLoadCommand first copies the firmware path into
/var/lib/firmware/m joined with "&&" and then runs "modprobe -v m p1=1",
and MakeUnloadCommand yields "modprobe -rv m && rm -rf /var/lib/firmware/m":
the firmware cleanup follows the modprobe invocation and the unload command
carries no parameters. -/
theorem firmware_scenario_commands :
    MakeLoadCommand firmwareScenarioSpec "m" =
      ["/bin/sh", "-c", "cp -r /var/lib/firmware/m /var/lib/firmware/m && modprobe -v m p1=1"] ∧
    MakeUnloadCommand firmwareScenarioSpec "m" =
      ["/bin/sh", "-c", "modprobe -rv m && rm -rf /var/lib/firmware/m"] := by
  exact ⟨rfl, rfl⟩

end Daemonset
